import Mathlib

/-!
Shallow embedding of the replay map renderer
(`src/frontend/src/pages/Replay/Deck.tsx`) together with the data model
from the shared type declarations (`LngLat`, `Agent`, `BridgeOverlay`, ...).

Modelling conventions:
- JavaScript numbers are modelled as `Rat` (all numeric uses in this code
  are either carried through opaquely or compared against integer
  constants, where rationals agree with IEEE doubles).
- `undefined`-able fields are `Option`; the `??` operator is `Option.getD`,
  optional chaining `?.` is `Option.map` / `Option.bind`.
- String truthiness (`if (s)`) is `jsTruthyStr`: defined and non-empty.
- The untagged union `{ [key: string]: string | number }` is an
  association list over `JsValue`.
- The `try`/`catch` around icon selection is modelled by running the body
  as an `Except` computation and handling the error case
  (`avatarUrlWithCatch`); the logging side effect is dropped.
- Layer objects keep only their identity and `data` arrays plus the
  per-datum accessor results that the claims talk about; static styling
  constants that are identical for every datum are kept where the claims
  mention them (point radius and color) and dropped otherwise.
-/

/-- A JavaScript `string | number` value. -/
inductive JsValue where
  | str (s : String)
  | num (n : Rat)
deriving DecidableEq, Repr

/-- A string-keyed JS object with `string | number` values,
as in `profile?: { [key: string]: string | number }`. -/
abbrev JsMap := List (String × JsValue)

/-- JS property read `m[k]`: `undefined` when the key is absent. -/
def jsGet (m : JsMap) (k : String) : Option JsValue :=
  (m.find? (fun kv => kv.fst == k)).map (fun kv => kv.snd)

/-- JS `s.toLowerCase()` (the inputs in play are ASCII). -/
def strToLower (s : String) : String :=
  String.mk (s.toList.map Char.toLower)

/-- JS string truthiness: `undefined` and the empty string are falsy. -/
def jsTruthyStr : Option String → Bool
  | some s => s ≠ ""
  | none => false

/-- JS template rendering of a possibly-undefined string
(backtick interpolation prints the text `undefined`). -/
def jsStr : Option String → String
  | some s => s
  | none => "undefined"

/-- Does the character list start with the pattern list? -/
def charsStartsWith : List Char → List Char → Bool
  | _, [] => true
  | [], _ :: _ => false
  | c :: rest, p :: ps => c = p && charsStartsWith rest ps

/-- Does the character list contain the pattern list as a contiguous run? -/
def charsHasSub : List Char → List Char → Bool
  | _, [] => true
  | [], _ :: _ => false
  | c :: rest, p :: ps =>
      charsStartsWith (c :: rest) (p :: ps) || charsHasSub rest (p :: ps)

/-- JS `s.includes(pat)`. -/
def strContains (s pat : String) : Bool :=
  charsHasSub s.toList pat.toList

/-- `s?.includes(pat)` guarded by truthiness, i.e. the test
`s && s.includes(pat)` on a possibly-undefined string. -/
def optTruthyContains (s : Option String) (pat : String) : Bool :=
  jsTruthyStr s && (match s with
    | some str => strContains str pat
    | none => false)

/-- RGBA color, `[number, number, number, number]`. -/
abbrev Rgba := List Rat

/-- The `BRIDGE_COLORS` record from `Deck.tsx`. -/
structure BridgeColors where
  critical : Rgba
  inProgress : Rgba
  defaultColor : Rgba
deriving DecidableEq, Repr

/-- `BRIDGE_COLORS` constant: critical red, in-progress orange, default blue. -/
def BRIDGE_COLORS : BridgeColors :=
  ⟨[220, 53, 69, 220], [255, 165, 0, 220], [52, 152, 219, 200]⟩

/-- `bridgeStatusColor` from `Deck.tsx`: work-order status containing
"progress" wins, then critical priority, then the default color. -/
def bridgeStatusColor (priority workOrderStatus : Option String) : Rgba :=
  let normalizedPriority := priority.map strToLower
  let normalizedStatus := workOrderStatus.map strToLower
  if optTruthyContains normalizedStatus "progress" then
    BRIDGE_COLORS.inProgress
  else if normalizedPriority = some "critical" then
    BRIDGE_COLORS.critical
  else
    BRIDGE_COLORS.defaultColor

/-- The `LngLat` interface. -/
structure LngLat where
  lng : Rat
  lat : Rat
deriving DecidableEq, Repr

/-- The `status` field of `AgentStatus`:
`{ [key: string]: string | number } | string`. -/
inductive AgentStatusVal where
  | obj (m : JsMap)
  | str (s : String)
deriving DecidableEq, Repr

/-- JS indexing `status[key]` for a status-field key: on the object arm an
ordinary property read; indexing a string by a non-numeric status key
yields `undefined`. -/
def statusIndex : AgentStatusVal → String → Option JsValue
  | AgentStatusVal.obj m, k => jsGet m k
  | AgentStatusVal.str _, _ => none

/-- The `Agent` interface (`AgentProfile` and `AgentStatus` merged). -/
structure Agent where
  id : Rat
  name : String
  profile : Option JsMap
  day : Rat
  t : Rat
  lng : Rat
  lat : Rat
  parent_id : Rat
  action : String
  status : AgentStatusVal
deriving DecidableEq, Repr

/-- The `last_update` field of `BridgeOverlay`. -/
structure LastUpdate where
  day : Option Rat
  t : Option Rat
  step : Option Rat
deriving DecidableEq, Repr

/-- The `BridgeOverlay` interface. -/
structure BridgeOverlay where
  bridge_id : String
  name : Option String
  priority : Option String
  risk : Option String
  status : Option String
  work_order_status : Option String
  action : Option String
  due_date : Option String
  days_overdue : Option Rat
  lng : Option Rat
  lat : Option Rat
  last_update : Option LastUpdate
deriving DecidableEq, Repr

/-- The icon-selection body inside the `try` block: gender and age buckets,
with `/icon/agent.png` kept when the profile is absent or malformed. -/
def selectAvatar (profile : Option JsMap) : String :=
  match profile with
  | none => "/icon/agent.png"
  | some p =>
    match jsGet p "gender", jsGet p "age" with
    | some (JsValue.str "male"), some (JsValue.num age) =>
        if age < 18 then "/icon/boy1.png"
        else if age < 65 then "/icon/boy2.png"
        else "/icon/boy3.png"
    | some (JsValue.str "female"), some (JsValue.num age) =>
        if age < 18 then "/icon/girl1.png"
        else if age < 65 then "/icon/girl2.png"
        else "/icon/girl3.png"
    | _, _ => "/icon/agent.png"

/-- The icon-selection body as a fallible computation (a JS block that may
throw). The straight-line embedding never throws, but the `catch` handler
is stated over an arbitrary body so the handler itself can be reasoned
about. -/
def selectAvatarE (profile : Option JsMap) : Except String String :=
  Except.ok (selectAvatar profile)

/-- The `try`/`catch` around icon selection: on an exception the error is
logged (dropped here) and `avatarUrl` keeps its initial value
`/icon/agent.png`; no exception escapes. -/
def avatarUrlWithCatch (body : Option JsMap → Except String String)
    (profile : Option JsMap) : String :=
  match body profile with
  | Except.ok u => u
  | Except.error _ => "/icon/agent.png"

/-- The avatar URL computed per agent in the icon-layer `data` mapper. -/
def avatarUrl (profile : Option JsMap) : String :=
  avatarUrlWithCatch selectAvatarE profile

/-- One datum of the icon layer: `{ id, coordinate: [lng, lat], avatarUrl }`. -/
structure IconEntry where
  id : Rat
  coordinate : List Rat
  avatarUrl : String
deriving DecidableEq, Repr

/-- One datum of the text layer: `{ id, position: [lng, lat], text }`. -/
structure TextEntry where
  id : Rat
  position : List Rat
  text : String
deriving DecidableEq, Repr

/-- One datum of the point layer:
`{ id, position, radius: 10, color: [22, 119, 255] }`. -/
structure PointEntry where
  id : Rat
  position : List Rat
  radius : Rat
  color : List Rat
deriving DecidableEq, Repr

/-- One datum of the heatmap layer: `{ position, weight }`. -/
structure HeatEntry where
  position : List Rat
  weight : JsValue
deriving DecidableEq, Repr

/-- A rendered layer: its deck.gl layer id together with its `data` array.
The bridge layers carry the overlay records themselves as data. -/
inductive Layer where
  | icon (data : List IconEntry)
  | text (data : List TextEntry)
  | point (data : List PointEntry)
  | heatmap (data : List HeatEntry)
  | bridgeStatus (data : List BridgeOverlay)
  | bridgeStatusLabel (data : List BridgeOverlay)
deriving DecidableEq, Repr

/-- Is this one of the two bridge-overlay layers? -/
def isBridgeLayer : Layer → Bool
  | Layer.bridgeStatus _ => true
  | Layer.bridgeStatusLabel _ => true
  | _ => false

/-- Is this the icon layer? -/
def isIconLayer : Layer → Bool
  | Layer.icon _ => true
  | _ => false

/-- Is this the heatmap layer? -/
def isHeatmapLayer : Layer → Bool
  | Layer.heatmap _ => true
  | _ => false

/-- The icon-layer datum built for one agent. -/
def iconEntry (a : Agent) : IconEntry :=
  ⟨a.id, [a.lng, a.lat], avatarUrl a.profile⟩

/-- The text-layer mapper: `undefined` for an empty name, a datum
otherwise (the `undefined`s are filtered out afterwards). -/
def textEntryOpt (a : Agent) : Option TextEntry :=
  if a.name = "" then none
  else some ⟨a.id, [a.lng, a.lat], a.name⟩

/-- The point-layer datum built for one agent. -/
def pointEntry (a : Agent) : PointEntry :=
  ⟨a.id, [a.lng, a.lat], 10, [22, 119, 255]⟩

/-- The heatmap datum for one agent: weight `a.status[key] ?? 0`. -/
def heatEntry (key : String) (a : Agent) : HeatEntry :=
  ⟨[a.lng, a.lat], (statusIndex a.status key).getD (JsValue.num 0)⟩

/-- The zoom-dependent agent layers: icon plus text above zoom 10
(`curZoom > 10`), otherwise a single point layer. -/
def agentLayers (agentList : List Agent) (curZoom : Rat) : List Layer :=
  if curZoom > 10 then
    [Layer.icon (agentList.map iconEntry),
     Layer.text (agentList.filterMap textEntryOpt)]
  else
    [Layer.point (agentList.map pointEntry)]

/-- `b.lng !== undefined && b.lat !== undefined`. -/
def coordComplete (b : BridgeOverlay) : Bool :=
  b.lng.isSome && b.lat.isSome

/-- The bridge marker radius accessor:
`d.priority?.toLowerCase() === 'critical' ? 180 : 140`. -/
def bridgeGetRadius (b : BridgeOverlay) : Rat :=
  if b.priority.map strToLower = some "critical" then 180 else 140

/-- The bridge marker fill-color accessor. -/
def bridgeGetFillColor (b : BridgeOverlay) : Rgba :=
  bridgeStatusColor b.priority b.work_order_status

/-- The bridge label text accessor: `d.name ?? d.bridge_id`. -/
def bridgeGetText (b : BridgeOverlay) : String :=
  b.name.getD b.bridge_id

/-- The observable store snapshot consumed by the component, together with
fields of the store the renderer does not read. -/
structure Store where
  agents : List Agent
  bridgeOverlays : Option (List BridgeOverlay)
  heatmapKeyInStatus : Option String
  mapCenter : LngLat
  expID : String
  clickedAgentID : Option Rat
deriving DecidableEq, Repr

/-- The layer list built by one render of `Deck`: zoom-dependent agent
layers, then the heatmap layer prepended when a status key is selected,
then the bridge layers appended when some overlay has both coordinates. -/
def renderLayers (store : Store) (curZoom : Rat) : List Layer :=
  let bridgeOverlays := store.bridgeOverlays.getD []
  let agentList := store.agents
  let layers := agentLayers agentList curZoom
  let layers :=
    match store.heatmapKeyInStatus with
    | some key => Layer.heatmap (agentList.map (heatEntry key)) :: layers
    | none => layers
  let bridgePoints := bridgeOverlays.filter coordComplete
  if bridgePoints.length > 0 then
    layers ++ [Layer.bridgeStatus bridgePoints,
               Layer.bridgeStatusLabel bridgePoints]
  else
    layers

/-- Properties of a hovered GeoJSON feature, as read by the `aoi` tooltip
branch. -/
structure AoiProps where
  name : Option String
  land_use : Option String
deriving DecidableEq, Repr

/-- A hovered picked object, read through `as any`: every field the
tooltip touches, each possibly `undefined`. -/
structure HoverObject where
  name : Option String
  bridge_id : Option String
  status : Option String
  work_order_status : Option String
  priority : Option String
  action : Option String
  due_date : Option String
  days_overdue : Option Rat
  properties : Option AoiProps
  id : Option Rat
deriving DecidableEq, Repr

/-- The `LAND_USE_NAME` lookup table. -/
def LAND_USE_NAME : List (String × String) :=
  [("LAND_USE_TYPE_UNSPECIFIED", "未指定"),
   ("LAND_USE_TYPE_COMMERCIAL", "商服用地"),
   ("LAND_USE_TYPE_INDUSTRIAL", "工矿仓储用地"),
   ("LAND_USE_TYPE_RESIDENTIAL", "住宅用地"),
   ("LAND_USE_TYPE_PUBLIC", "公共管理与公共服务用地"),
   ("LAND_USE_TYPE_TRANSPORTATION", "交通运输用地"),
   ("LAND_USE_TYPE_OTHER", "其他土地")]

/-- `LAND_USE_NAME.get(k)` on a possibly-undefined key. -/
def landUseName (k : Option String) : Option String :=
  k.bind (fun key => (LAND_USE_NAME.find? (fun kv => kv.fst == key)).map
    (fun kv => kv.snd))

/-- `info.name ?? info.bridge_id`. -/
def tooltipHeader (o : HoverObject) : Option String :=
  match o.name with
  | some n => some n
  | none => o.bridge_id

/-- The bridge status line: `work_order_status` truthy appends it after
`status ?? 'work_order'`. -/
def tooltipStatusLine (o : HoverObject) : String :=
  if jsTruthyStr o.work_order_status then
    (o.status.getD "work_order") ++ " - " ++ jsStr o.work_order_status
  else
    o.status.getD "work_order"

/-- The due line: overdue days when defined, else a truthy due date,
else empty. -/
def tooltipDue (o : HoverObject) : String :=
  match o.days_overdue with
  | some d => "Overdue: " ++ toString d ++ " days"
  | none =>
    if jsTruthyStr o.due_date then "Due: " ++ jsStr o.due_date else ""

/-- The priority line: present only when `priority` is truthy. -/
def tooltipRisk (o : HoverObject) : String :=
  if jsTruthyStr o.priority then "Priority: " ++ jsStr o.priority else ""

/-- The HTML block assembled for the bridge layers. -/
def bridgeTooltipHtml (o : HoverObject) : String :=
  "<b>" ++ jsStr (tooltipHeader o) ++ "</b><br/>" ++ tooltipStatusLine o
    ++ "<br/>" ++ tooltipRisk o ++ "<br/>" ++ (o.action.getD "")
    ++ "<br/>" ++ tooltipDue o

/-- The `aoi` tooltip branch: `null` when the name, the feature id or the
land-use label is undefined, otherwise the HTML block. -/
def aoiTooltipHtml (o : HoverObject) : Option String :=
  let name := o.properties.bind (fun p => p.name)
  let landUse := landUseName (o.properties.bind (fun p => p.land_use))
  match name, o.id, landUse with
  | some n, some i, some lu =>
      some ("<b>" ++ n ++ "</b><br/>ID = " ++ toString i ++ "<br/>" ++ lu)
  | _, _, _ => none

/-- `getTooltip` from `Deck.tsx`, as a function of the picked object and
the picked layer id (`null` results are `none`). -/
def getTooltip (object : Option HoverObject) (layerId : Option String) :
    Option String :=
  match object, layerId with
  | some o, some lid =>
    if lid = "bridge-status" ∨ lid = "bridge-status-label" then
      some (bridgeTooltipHtml o)
    else if lid = "aoi" then
      aoiTooltipHtml o
    else
      none
  | _, _ => none

/-- The pick info consumed by the click handler: the picked layer id (if
any) and the picked object id. -/
structure ClickInfo where
  layer : Option String
  objectId : Rat
deriving DecidableEq, Repr

/-- The `onClick` handler, as the agent id (if any) passed to the single
`store.setClickedAgentID` call it makes: left clicks on the agent-bearing
layers select, everything else is a no-op. -/
def onClickEffect (leftButton : Bool) (info : ClickInfo) : Option Rat :=
  if leftButton then
    match info.layer with
    | none => none
    | some lid =>
      if lid = "icon" ∨ lid = "point" ∨ lid = "text" then
        some info.objectId
      else
        none
  else
    none

/-! ## Example fixtures -/

/-- Profile literal: male with the given age payload. -/
def maleProfile (v : JsValue) : JsMap :=
  [("gender", JsValue.str "male"), ("age", v)]

/-- Profile literal: female with the given age payload. -/
def femaleProfile (v : JsValue) : JsMap :=
  [("gender", JsValue.str "female"), ("age", v)]

/-- A concrete agent: male, age 10, non-empty name, one status field. -/
def agentA : Agent :=
  ⟨1, "alice", some (maleProfile (JsValue.num 10)),
   0, 0, 116, 39, 0, "idle", AgentStatusVal.obj [("hunger", JsValue.num 5)]⟩

/-- A concrete agent with an empty name and no status mapping. -/
def agentB : Agent :=
  ⟨2, "", none, 0, 0, 117, 40, 0, "walk", AgentStatusVal.str "sleeping"⟩

/-- A coordinate-complete bridge overlay, critical and in progress. -/
def bridgeB1 : BridgeOverlay :=
  ⟨"b1", some "North Bridge", some "Critical", none, some "work", some "In Progress",
   some "inspect", none, some 3, some 116, some 39, none⟩

/-- A bridge overlay with no latitude. -/
def bridgeB2 : BridgeOverlay :=
  ⟨"b2", none, none, none, none, none, none, some "2031-01-01", none, some 116, none, none⟩

/-- A store snapshot with one agent and nothing else selected. -/
def store0 : Store :=
  ⟨[agentA], none, none, ⟨116, 39⟩, "exp-1", none⟩

/-- A store snapshot exercising every layer kind. -/
def store1 : Store :=
  ⟨[agentA, agentB], some [bridgeB1, bridgeB2], some "hunger", ⟨116, 39⟩, "exp-1", none⟩

/-- `store1` with the fields the renderer does not read changed. -/
def store2 : Store :=
  ⟨[agentA, agentB], some [bridgeB1, bridgeB2], some "hunger", ⟨116, 39⟩, "exp-2", some 1⟩

/-! ## Helper lemmas -/

/-- `optTruthyContains` on a lowered status reduces to plain containment:
the truthiness guard is redundant because the empty string cannot contain
`progress`. -/
theorem optTruthyContains_progress_eq (w : Option String) :
    optTruthyContains (w.map strToLower) "progress" =
      (match w with
       | some s => strContains (strToLower s) "progress"
       | none => false) := by
  cases w with
  | none => rfl
  | some s =>
    by_cases h : strToLower s = ""
    · simp [optTruthyContains, jsTruthyStr, h]
      decide
    · simp [optTruthyContains, jsTruthyStr, h]

/-- Characterization of `bridgeStatusColor` with the truthiness guard
eliminated. -/
theorem bridgeStatusColor_eq (p w : Option String) :
    bridgeStatusColor p w =
      if (match w with
          | some s => strContains (strToLower s) "progress"
          | none => false) then BRIDGE_COLORS.inProgress
      else if p.map strToLower = some "critical" then BRIDGE_COLORS.critical
      else BRIDGE_COLORS.defaultColor := by
  simp only [bridgeStatusColor]
  rw [optTruthyContains_progress_eq]

/-- In-progress work orders force the in-progress color. -/
theorem bridgeStatusColor_inProgress_of_contains (p : Option String) (s : String)
    (hc : strContains (strToLower s) "progress" = true) :
    bridgeStatusColor p (some s) = BRIDGE_COLORS.inProgress := by
  rw [bridgeStatusColor_eq]
  simp [hc]

/-- Absent or non-progress work orders fall through to the priority test. -/
theorem bridgeStatusColor_no_progress (p w : Option String)
    (hnc : ∀ s, w = some s → strContains (strToLower s) "progress" = false) :
    bridgeStatusColor p w =
      (if p.map strToLower = some "critical" then BRIDGE_COLORS.critical
       else BRIDGE_COLORS.defaultColor) := by
  rw [bridgeStatusColor_eq]
  cases w with
  | none => rfl
  | some s => simp [hnc s rfl]

/-- C2: bridge status color precedence — a work-order status whose
lowercased form contains "progress" forces the in-progress color
regardless of priority; otherwise a priority whose lowercased form equals
"critical" gives the critical color; otherwise the default color. -/
theorem bridgeStatusColor_precedence (p w : Option String) :
    (∀ s, w = some s → strContains (strToLower s) "progress" = true →
      bridgeStatusColor p w = BRIDGE_COLORS.inProgress) ∧
    ((∀ s, w = some s → strContains (strToLower s) "progress" = false) →
      p.map strToLower = some "critical" →
      bridgeStatusColor p w = BRIDGE_COLORS.critical) ∧
    ((∀ s, w = some s → strContains (strToLower s) "progress" = false) →
      ¬ p.map strToLower = some "critical" →
      bridgeStatusColor p w = BRIDGE_COLORS.defaultColor) := by
  refine ⟨?_, ?_, ?_⟩
  · intro s hw hc
    subst hw
    exact bridgeStatusColor_inProgress_of_contains p s hc
  · intro hnc hp
    rw [bridgeStatusColor_no_progress p w hnc]
    simp [hp]
  · intro hnc hp
    rw [bridgeStatusColor_no_progress p w hnc]
    simp [hp]

/-- Witness for C2: a concrete critical, in-progress pair takes the
in-progress color. -/
theorem bridgeStatusColor_precedence_witness :
    bridgeStatusColor (some "Critical") (some "In Progress") =
      BRIDGE_COLORS.inProgress :=
  (bridgeStatusColor_precedence (some "Critical") (some "In Progress")).1
    "In Progress" rfl (by decide)

/-- The icon mapper on a male profile with numeric age is the age-bucket
conditional. -/
theorem avatarUrl_male_num (age : Rat) :
    avatarUrl (some (maleProfile (JsValue.num age))) =
      (if age < 18 then "/icon/boy1.png"
       else if age < 65 then "/icon/boy2.png"
       else "/icon/boy3.png") := rfl

/-- The icon mapper on a female profile with numeric age is the age-bucket
conditional. -/
theorem avatarUrl_female_num (age : Rat) :
    avatarUrl (some (femaleProfile (JsValue.num age))) =
      (if age < 18 then "/icon/girl1.png"
       else if age < 65 then "/icon/girl2.png"
       else "/icon/girl3.png") := rfl

/-- C3: icon selection by profile — male at 10 gives boy1, female at 40
gives girl2, an undefined profile and a non-numeric age give the default
agent icon, and ages bucket at 18 and 65 for each gender. -/
theorem icon_selection_by_profile (age : Rat) (s : String) :
    avatarUrl (some (maleProfile (JsValue.num 10))) = "/icon/boy1.png" ∧
    avatarUrl (some (femaleProfile (JsValue.num 40))) = "/icon/girl2.png" ∧
    avatarUrl none = "/icon/agent.png" ∧
    avatarUrl (some (maleProfile (JsValue.str s))) = "/icon/agent.png" ∧
    avatarUrl (some (femaleProfile (JsValue.str s))) = "/icon/agent.png" ∧
    (age < 18 →
      avatarUrl (some (maleProfile (JsValue.num age))) = "/icon/boy1.png" ∧
      avatarUrl (some (femaleProfile (JsValue.num age))) = "/icon/girl1.png") ∧
    (18 ≤ age → age < 65 →
      avatarUrl (some (maleProfile (JsValue.num age))) = "/icon/boy2.png" ∧
      avatarUrl (some (femaleProfile (JsValue.num age))) = "/icon/girl2.png") ∧
    (65 ≤ age →
      avatarUrl (some (maleProfile (JsValue.num age))) = "/icon/boy3.png" ∧
      avatarUrl (some (femaleProfile (JsValue.num age))) = "/icon/girl3.png") := by
  refine ⟨by decide, by decide, rfl, rfl, rfl, ?_, ?_, ?_⟩
  · intro h
    rw [avatarUrl_male_num, avatarUrl_female_num, if_pos h, if_pos h]
    exact ⟨rfl, rfl⟩
  · intro h18 h65
    rw [avatarUrl_male_num, avatarUrl_female_num,
        if_neg (not_lt.mpr h18), if_pos h65,
        if_neg (not_lt.mpr h18), if_pos h65]
    exact ⟨rfl, rfl⟩
  · intro h65
    have h18 : ¬ age < 18 := not_lt.mpr (le_trans (by norm_num) h65)
    rw [avatarUrl_male_num, avatarUrl_female_num,
        if_neg h18, if_neg (not_lt.mpr h65),
        if_neg h18, if_neg (not_lt.mpr h65)]
    exact ⟨rfl, rfl⟩

/-- Witness for C3: the bucket clauses instantiated at ages 10, 40 and 70. -/
theorem icon_selection_by_profile_witness :
    (avatarUrl (some (maleProfile (JsValue.num 10))) = "/icon/boy1.png" ∧
     avatarUrl (some (femaleProfile (JsValue.num 10))) = "/icon/girl1.png") ∧
    (avatarUrl (some (maleProfile (JsValue.num 40))) = "/icon/boy2.png" ∧
     avatarUrl (some (femaleProfile (JsValue.num 40))) = "/icon/girl2.png") ∧
    (avatarUrl (some (maleProfile (JsValue.num 70))) = "/icon/boy3.png" ∧
     avatarUrl (some (femaleProfile (JsValue.num 70))) = "/icon/girl3.png") :=
  ⟨(icon_selection_by_profile 10 "x").2.2.2.2.2.1 (by decide),
   (icon_selection_by_profile 40 "x").2.2.2.2.2.2.1 (by decide) (by decide),
   (icon_selection_by_profile 70 "x").2.2.2.2.2.2.2 (by decide)⟩

/-- C6: profile failure semantics — whatever the icon-selection body does,
the surrounding handler returns the default agent icon on an exception and
the computed URL on success, so every agent still gets an icon entry and
no exception escapes; the mapper used by the icon layer is exactly this
handler applied to the embedded selection body. -/
theorem avatar_catch_fallback (body : Option JsMap → Except String String)
    (profile : Option JsMap) :
    (∀ e, body profile = Except.error e →
      avatarUrlWithCatch body profile = "/icon/agent.png") ∧
    (∀ u, body profile = Except.ok u →
      avatarUrlWithCatch body profile = u) ∧
    avatarUrl profile = avatarUrlWithCatch selectAvatarE profile := by
  refine ⟨?_, ?_, rfl⟩ <;> intro x hx <;> simp [avatarUrlWithCatch, hx]

/-- A body that always throws, standing in for malformed profile data. -/
def throwingBody (e : String) : Option JsMap → Except String String :=
  fun _ => Except.error e

/-- Witness for C6: a throwing body still yields the default icon URL. -/
theorem avatar_catch_fallback_witness :
    avatarUrlWithCatch (throwingBody "TypeError") none = "/icon/agent.png" :=
  (avatar_catch_fallback (throwingBody "TypeError") none).1 "TypeError" rfl

/-- C7: click semantics — a left click on a picked object of one of the
agent-bearing layers passes exactly the picked object id to the
asynchronous selection setter; a left click with no picked layer passes
nothing; a non-left (right) click passes nothing. -/
theorem onClick_semantics (leftButton : Bool) (info : ClickInfo) :
    (leftButton = true → ∀ lid, info.layer = some lid →
      (lid = "icon" ∨ lid = "point" ∨ lid = "text") →
      onClickEffect leftButton info = some info.objectId) ∧
    (leftButton = true → info.layer = none →
      onClickEffect leftButton info = none) ∧
    (leftButton = false → onClickEffect leftButton info = none) := by
  refine ⟨?_, ?_, ?_⟩
  · intro hl lid hlid hmem
    subst hl
    simp [onClickEffect, hlid, hmem]
  · intro hl hnone
    subst hl
    simp [onClickEffect, hnone]
  · intro hl
    subst hl
    rfl

/-- Witness for C7: a left click on the icon layer selects the object id,
a left click off the layers and a right click select nothing. -/
theorem onClick_semantics_witness :
    onClickEffect true ⟨some "icon", 7⟩ = some (7 : Rat) ∧
    onClickEffect true ⟨none, 7⟩ = none ∧
    onClickEffect false ⟨some "icon", 7⟩ = none :=
  ⟨(onClick_semantics true ⟨some "icon", 7⟩).1 rfl "icon" rfl (Or.inl rfl),
   (onClick_semantics true ⟨none, 7⟩).2.1 rfl rfl,
   (onClick_semantics false ⟨some "icon", 7⟩).2.2 rfl⟩

/-- The overlay with its work-order status replaced. -/
def setWorkOrderStatus (b : BridgeOverlay) (w : Option String) : BridgeOverlay :=
  ⟨b.bridge_id, b.name, b.priority, b.risk, b.status, w, b.action,
   b.due_date, b.days_overdue, b.lng, b.lat, b.last_update⟩

/-- C10: bridge marker radius and label — the marker radius is 180 exactly
for lowercased priority "critical" and 140 otherwise, unchanged by any
work-order status, the label text is the name falling back to the bridge
id, and a critical in-progress overlay gets the in-progress color together
with the critical radius. -/
theorem bridge_marker_attrs (b : BridgeOverlay) (w : Option String) (s : String) :
    bridgeGetRadius b =
      (if b.priority.map strToLower = some "critical" then 180 else 140) ∧
    bridgeGetRadius (setWorkOrderStatus b w) = bridgeGetRadius b ∧
    bridgeGetText b = b.name.getD b.bridge_id ∧
    (b.priority.map strToLower = some "critical" →
      b.work_order_status = some s →
      strContains (strToLower s) "progress" = true →
      bridgeGetFillColor b = BRIDGE_COLORS.inProgress ∧
      bridgeGetRadius b = 180) := by
  refine ⟨rfl, rfl, rfl, ?_⟩
  intro hp hw hc
  constructor
  · rw [bridgeGetFillColor, hw]
    exact bridgeStatusColor_inProgress_of_contains b.priority s hc
  · rw [bridgeGetRadius, if_pos hp]

/-- Witness for C10: the concrete critical in-progress overlay gets the
in-progress color and the critical radius. -/
theorem bridge_marker_attrs_witness :
    bridgeGetFillColor bridgeB1 = BRIDGE_COLORS.inProgress ∧
    bridgeGetRadius bridgeB1 = 180 :=
  (bridge_marker_attrs bridgeB1 none "In Progress").2.2.2
    (by decide) rfl (by decide)

/-- Every list starts with itself. -/
theorem charsStartsWith_refl (l : List Char) : charsStartsWith l l = true := by
  induction l with
  | nil => rfl
  | cons c t ih => simp [charsStartsWith, ih]

/-- A list starts with any pattern it extends. -/
theorem charsStartsWith_append (pat l : List Char) :
    charsStartsWith (pat ++ l) pat = true := by
  induction pat with
  | nil => cases l <;> rfl
  | cons p ps ih => simp [charsStartsWith, ih]

/-- Starting with the pattern implies containing it. -/
theorem charsHasSub_of_startsWith (l pat : List Char)
    (h : charsStartsWith l pat = true) : charsHasSub l pat = true := by
  cases pat with
  | nil => cases l <;> rfl
  | cons p ps =>
    cases l with
    | nil => exact absurd h (by simp [charsStartsWith])
    | cons c rest => simp [charsHasSub, h]

/-- Containment is preserved by prepending. -/
theorem charsHasSub_append_left (l1 l2 pat : List Char)
    (h : charsHasSub l2 pat = true) : charsHasSub (l1 ++ l2) pat = true := by
  induction l1 with
  | nil => exact h
  | cons c t ih =>
    cases pat with
    | nil => rfl
    | cons p ps => simp [charsHasSub, ih]

/-- String append acts on the character data. -/
theorem strData_append (s t : String) : (s ++ t).data = s.data ++ t.data := rfl

/-- Counting text entries: one per agent whose name is non-empty. -/
theorem textEntry_count (l : List Agent) :
    (l.filterMap textEntryOpt).length =
      (l.filter (fun a => !(a.name == ""))).length := by
  induction l with
  | nil => rfl
  | cons a t ih =>
    by_cases h : a.name = ""
    · simp [textEntryOpt, h, ih]
    · have hb : (a.name == "") = false := beq_eq_false_iff_ne.mpr h
      simp [textEntryOpt, h, hb, ih]

/-- Structural form of one render: the optional heatmap layer, then the
zoom-dependent agent layers, then the optional pair of bridge layers. -/
theorem renderLayers_eq (s : Store) (z : Rat) :
    renderLayers s z =
      (match s.heatmapKeyInStatus with
       | some key => [Layer.heatmap (s.agents.map (heatEntry key))]
       | none => []) ++
      agentLayers s.agents z ++
      (if 0 < ((s.bridgeOverlays.getD []).filter coordComplete).length then
        [Layer.bridgeStatus ((s.bridgeOverlays.getD []).filter coordComplete),
         Layer.bridgeStatusLabel ((s.bridgeOverlays.getD []).filter coordComplete)]
       else []) := by
  simp only [renderLayers]
  cases s.heatmapKeyInStatus <;> split <;> simp_all

/-- C1 (amended): zoom-based layer switching — for zoom strictly above the
threshold 10 the rendered layers include one icon entry per agent and one
text entry per agent with non-empty name; at or below 10 the agent layer
output is the uniform point layer with one entry per agent and no icon or
text layer. -/
theorem zoom_layer_switching (s : Store) (z : Rat) :
    (10 < z →
      Layer.icon (s.agents.map iconEntry) ∈ renderLayers s z ∧
      Layer.text (s.agents.filterMap textEntryOpt) ∈ renderLayers s z ∧
      (s.agents.map iconEntry).length = s.agents.length ∧
      (s.agents.filterMap textEntryOpt).length =
        (s.agents.filter (fun a => !(a.name == ""))).length) ∧
    (z ≤ 10 →
      Layer.point (s.agents.map pointEntry) ∈ renderLayers s z ∧
      (∀ d, Layer.icon d ∉ renderLayers s z) ∧
      (∀ d, Layer.text d ∉ renderLayers s z) ∧
      (s.agents.map pointEntry).length = s.agents.length) := by
  constructor
  · intro hz
    have hag : agentLayers s.agents z =
        [Layer.icon (s.agents.map iconEntry),
         Layer.text (s.agents.filterMap textEntryOpt)] := by
      simp [agentLayers, hz]
    refine ⟨?_, ?_, by simp, textEntry_count s.agents⟩
    · rw [renderLayers_eq, hag]; simp
    · rw [renderLayers_eq, hag]; simp
  · intro hz
    have hnz : ¬ z > 10 := not_lt.mpr hz
    have hag : agentLayers s.agents z =
        [Layer.point (s.agents.map pointEntry)] := by
      simp [agentLayers, hnz]
    refine ⟨?_, ?_, ?_, by simp⟩
    · rw [renderLayers_eq, hag]; simp
    · intro d
      rw [renderLayers_eq, hag]
      cases s.heatmapKeyInStatus <;> split <;> simp
    · intro d
      rw [renderLayers_eq, hag]
      cases s.heatmapKeyInStatus <;> split <;> simp

/-- Witness for C1: at zoom 11 the single-agent store renders its icon and
text layers with matching entry counts. -/
theorem zoom_layer_switching_witness :
    Layer.icon (store0.agents.map iconEntry) ∈ renderLayers store0 11 ∧
    Layer.text (store0.agents.filterMap textEntryOpt) ∈ renderLayers store0 11 ∧
    (store0.agents.map iconEntry).length = store0.agents.length ∧
    (store0.agents.filterMap textEntryOpt).length =
      (store0.agents.filter (fun a => !(a.name == ""))).length :=
  (zoom_layer_switching store0 11).1 (by decide)

/-- Counterexample to C1 as stated: zoom level 10 is at the claimed
threshold, the store holds one agent, yet the render contains no icon
layer at all — it is the point layer. -/
theorem zoom_threshold_boundary :
    (10 : Rat) ≥ 10 ∧ store0.agents.length = 1 ∧
    (renderLayers store0 10).countP isIconLayer = 0 ∧
    renderLayers store0 10 = [Layer.point [pointEntry agentA]] := by decide

/-- C4: bridge layer presence — the bridge layers in a render are exactly
the status-marker and label layers over the coordinate-complete overlay
entries when at least one exists, and absent otherwise; having a
coordinate-complete entry is equivalent to some overlay entry carrying
both longitude and latitude. -/
theorem bridge_layer_presence (s : Store) (z : Rat) :
    (renderLayers s z).filter isBridgeLayer =
      (if 0 < ((s.bridgeOverlays.getD []).filter coordComplete).length then
        [Layer.bridgeStatus ((s.bridgeOverlays.getD []).filter coordComplete),
         Layer.bridgeStatusLabel ((s.bridgeOverlays.getD []).filter coordComplete)]
       else []) ∧
    (0 < ((s.bridgeOverlays.getD []).filter coordComplete).length ↔
      ∃ b ∈ s.bridgeOverlays.getD [], b.lng.isSome ∧ b.lat.isSome) := by
  constructor
  · rw [renderLayers_eq, List.filter_append, List.filter_append]
    have h1 : (match s.heatmapKeyInStatus with
        | some key => [Layer.heatmap (s.agents.map (heatEntry key))]
        | none => ([] : List Layer)).filter isBridgeLayer = [] := by
      cases s.heatmapKeyInStatus <;> simp [isBridgeLayer]
    have h2 : (agentLayers s.agents z).filter isBridgeLayer = [] := by
      unfold agentLayers
      split <;> simp [isBridgeLayer]
    rw [h1, h2]
    simp only [List.nil_append]
    split <;> simp [isBridgeLayer]
  · rw [List.length_pos]
    constructor
    · intro hne
      obtain ⟨b, hb⟩ := List.exists_mem_of_ne_nil _ hne
      have hb2 := List.mem_filter.mp hb
      have hcc := hb2.2
      simp only [coordComplete, Bool.and_eq_true] at hcc
      exact ⟨b, hb2.1, hcc.1, hcc.2⟩
    · rintro ⟨b, hbl, hlng, hlat⟩
      exact List.ne_nil_of_mem
        (List.mem_filter.mpr ⟨hbl, by simp [coordComplete, hlng, hlat]⟩)

/-- Witness for C4: in the mixed store only the coordinate-complete
overlay survives into both bridge layers. -/
theorem bridge_layer_presence_witness :
    (renderLayers store1 11).filter isBridgeLayer =
      (if 0 < ((store1.bridgeOverlays.getD []).filter coordComplete).length then
        [Layer.bridgeStatus ((store1.bridgeOverlays.getD []).filter coordComplete),
         Layer.bridgeStatusLabel ((store1.bridgeOverlays.getD []).filter coordComplete)]
       else []) :=
  (bridge_layer_presence store1 11).1

/-- C5: heatmap layer — with a selected status key the render starts with
the heatmap layer holding one entry per agent whose weight is the agent's
value at that key with missing values defaulting to 0; with no key
selected no heatmap layer occurs. -/
theorem heatmap_layer_rule (s : Store) (z : Rat) :
    (∀ key, s.heatmapKeyInStatus = some key →
      (renderLayers s z).head? =
        some (Layer.heatmap (s.agents.map (heatEntry key))) ∧
      (s.agents.map (heatEntry key)).length = s.agents.length ∧
      ∀ a ∈ s.agents, (heatEntry key a).weight =
        (statusIndex a.status key).getD (JsValue.num 0)) ∧
    (s.heatmapKeyInStatus = none →
      ∀ d, Layer.heatmap d ∉ renderLayers s z) := by
  constructor
  · intro key hk
    refine ⟨?_, by simp, fun a _ => rfl⟩
    rw [renderLayers_eq, hk]
    rfl
  · intro hk d
    rw [renderLayers_eq, hk]
    unfold agentLayers
    split <;> split <;> simp_all

/-- Witness for C5: the mixed store with key "hunger" renders the heatmap
layer first. -/
theorem heatmap_layer_rule_witness :
    (renderLayers store1 11).head? =
      some (Layer.heatmap (store1.agents.map (heatEntry "hunger"))) :=
  ((heatmap_layer_rule store1 11).1 "hunger" rfl).1

/-- C9: render determinism — the layer list is a function of the consumed
snapshot (agents, bridge overlays, heatmap key, map center) and the zoom:
two stores agreeing on those fields render identical layer lists at equal
zoom, whatever their remaining fields hold. -/
theorem render_deterministic (s1 s2 : Store) (z : Rat)
    (hA : s1.agents = s2.agents)
    (hB : s1.bridgeOverlays = s2.bridgeOverlays)
    (hH : s1.heatmapKeyInStatus = s2.heatmapKeyInStatus)
    (_hM : s1.mapCenter = s2.mapCenter) :
    renderLayers s1 z = renderLayers s2 z := by
  rw [renderLayers_eq, renderLayers_eq, hA, hB, hH]

/-- Witness for C9: two stores differing only in experiment id and clicked
agent render the same layers. -/
theorem render_deterministic_witness :
    store1.expID ≠ store2.expID ∧
    store1.clickedAgentID ≠ store2.clickedAgentID ∧
    renderLayers store1 11 = renderLayers store2 11 :=
  ⟨by decide, by decide, render_deterministic store1 store2 11 rfl rfl rfl rfl⟩

/-- The pattern placed at the front is contained. -/
theorem charsHasSub_here (pat rest : List Char) :
    charsHasSub (pat ++ rest) pat = true :=
  charsHasSub_of_startsWith _ _ (charsStartsWith_append _ _)

/-- Every list contains itself. -/
theorem charsHasSub_self (l : List Char) : charsHasSub l l = true :=
  charsHasSub_of_startsWith _ _ (charsStartsWith_refl _)

/-- A hover object with every dynamic field undefined. -/
def aoiHoverBare : HoverObject :=
  ⟨none, none, none, none, none, none, none, none, none, none⟩

/-- The hover object picked from the concrete bridge overlay `bridgeB1`. -/
def hoverB1 : HoverObject :=
  ⟨some "North Bridge", some "b1", some "work", some "In Progress",
   some "Critical", some "inspect", none, some 3, none, none⟩

/-- C8 (amended): tooltip dispatch — no hovered object or layer gives no
tooltip; the two bridge layer ids give the HTML block, which contains the
header (name or bridge id), the status line, the priority line, the action
and the overdue-or-due line; the aoi layer id gives the name/id/land-use
block exactly when the feature name, id and land-use label are all
defined, and no tooltip otherwise; every other layer id gives no
tooltip. -/
theorem tooltip_dispatch (o : HoverObject) (lid : String) :
    getTooltip none (some lid) = none ∧
    getTooltip (some o) none = none ∧
    getTooltip none none = none ∧
    ((lid = "bridge-status" ∨ lid = "bridge-status-label") →
      getTooltip (some o) (some lid) = some (bridgeTooltipHtml o) ∧
      strContains (bridgeTooltipHtml o) (jsStr (tooltipHeader o)) = true ∧
      strContains (bridgeTooltipHtml o) (tooltipStatusLine o) = true ∧
      strContains (bridgeTooltipHtml o) (tooltipRisk o) = true ∧
      strContains (bridgeTooltipHtml o) (o.action.getD "") = true ∧
      strContains (bridgeTooltipHtml o) (tooltipDue o) = true) ∧
    (lid = "aoi" →
      getTooltip (some o) (some lid) = aoiTooltipHtml o ∧
      (aoiTooltipHtml o = none ↔
        (o.properties.bind (fun p => p.name) = none ∨ o.id = none ∨
         landUseName (o.properties.bind (fun p => p.land_use)) = none))) ∧
    (¬ (lid = "bridge-status" ∨ lid = "bridge-status-label" ∨ lid = "aoi") →
      getTooltip (some o) (some lid) = none) := by
  refine ⟨rfl, rfl, rfl, ?_, ?_, ?_⟩
  · intro h
    refine ⟨?_, ?_, ?_, ?_, ?_, ?_⟩
    · show (if lid = "bridge-status" ∨ lid = "bridge-status-label" then
          some (bridgeTooltipHtml o)
        else if lid = "aoi" then aoiTooltipHtml o else none) =
        some (bridgeTooltipHtml o)
      rw [if_pos h]
    · show charsHasSub (bridgeTooltipHtml o).data
        (jsStr (tooltipHeader o)).data = true
      simp only [bridgeTooltipHtml, strData_append, List.append_assoc]
      apply charsHasSub_append_left
      exact charsHasSub_here _ _
    · show charsHasSub (bridgeTooltipHtml o).data
        (tooltipStatusLine o).data = true
      simp only [bridgeTooltipHtml, strData_append, List.append_assoc]
      iterate 3 apply charsHasSub_append_left
      exact charsHasSub_here _ _
    · show charsHasSub (bridgeTooltipHtml o).data (tooltipRisk o).data = true
      simp only [bridgeTooltipHtml, strData_append, List.append_assoc]
      iterate 5 apply charsHasSub_append_left
      exact charsHasSub_here _ _
    · show charsHasSub (bridgeTooltipHtml o).data (o.action.getD "").data = true
      simp only [bridgeTooltipHtml, strData_append, List.append_assoc]
      iterate 7 apply charsHasSub_append_left
      exact charsHasSub_here _ _
    · show charsHasSub (bridgeTooltipHtml o).data (tooltipDue o).data = true
      simp only [bridgeTooltipHtml, strData_append, List.append_assoc]
      iterate 9 apply charsHasSub_append_left
      exact charsHasSub_self _
  · intro h
    subst h
    constructor
    · show (if ("aoi" : String) = "bridge-status" ∨
            ("aoi" : String) = "bridge-status-label" then
          some (bridgeTooltipHtml o)
        else if ("aoi" : String) = "aoi" then aoiTooltipHtml o else none) =
        aoiTooltipHtml o
      rw [if_neg (by decide), if_pos rfl]
    · cases hn : o.properties.bind (fun p => p.name) <;>
        cases hi : o.id <;>
        cases hl : landUseName (o.properties.bind (fun p => p.land_use)) <;>
        simp [aoiTooltipHtml, hn, hi, hl]
  · intro h
    have h1 : ¬ (lid = "bridge-status" ∨ lid = "bridge-status-label") :=
      fun hc => h (hc.elim Or.inl (fun x => Or.inr (Or.inl x)))
    have h2 : ¬ lid = "aoi" := fun hc => h (Or.inr (Or.inr hc))
    show (if lid = "bridge-status" ∨ lid = "bridge-status-label" then
        some (bridgeTooltipHtml o)
      else if lid = "aoi" then aoiTooltipHtml o else none) = none
    rw [if_neg h1, if_neg h2]

/-- Witness for C8: the bridge layer id yields the HTML block on a
concrete hover object, and an unknown layer id yields no tooltip. -/
theorem tooltip_dispatch_witness :
    getTooltip (some hoverB1) (some "bridge-status") =
      some (bridgeTooltipHtml hoverB1) ∧
    getTooltip (some hoverB1) (some "icon") = none :=
  ⟨((tooltip_dispatch hoverB1 "bridge-status").2.2.2.1 (Or.inl rfl)).1,
   (tooltip_dispatch hoverB1 "icon").2.2.2.2.2 (by decide)⟩

/-- Counterexample to C8 as stated: an object hovered on the aoi layer
with no feature properties produces no tooltip rather than a
name/id/land-use block. -/
theorem tooltip_aoi_counterexample :
    getTooltip (some aoiHoverBare) (some "aoi") = none := by decide
